import Mathlib

/-!
Shallow embedding of the weather-station pipeline in
src/Astro/Weather_Station.py: deserialized JSON payloads, the Ecowitt
parse step, the cloud-coverage fetch, the Wunderground parameter
rendering and upload outcome, and the orchestrating cycle
collect_and_upload, together with an event trace recording which
external calls each cycle performs.
-/

/-- JSON values as produced by response.json(). -/
inductive Json where
  | null
  | bool (b : Bool)
  | num (q : Rat)
  | str (s : String)
  | arr (elems : List Json)
  | obj (fields : List (String × Json))

/-- First-match lookup in an association list (JSON objects and Python
dicts in this model carry no duplicate keys). -/
def lookupPairs {α : Type} : List (String × α) → String → Option α
  | [], _ => none
  | (k, v) :: rest, key => if k = key then some v else lookupPairs rest key

/-- Python truthiness of a deserialized JSON value: None, False, 0, "",
[] and \x7b\x7d are falsy. -/
def Json.isTruthy : Json → Bool
  | .null => false
  | .bool b => b
  | .num q => decide (q ≠ 0)
  | .str s => decide (s ≠ "")
  | .arr es => !es.isEmpty
  | .obj fs => !fs.isEmpty

/-- d.get(k, default) where the result is used as a further receiver: the
stored value is returned unchanged (a stored JSON null stays Json.null,
standing for Python None). The outer none models the AttributeError
raised when the receiver is not a dict. -/
def Json.dictGetD : Json → String → Json → Option Json
  | .obj fs, k, d => some ((lookupPairs fs k).getD d)
  | _, _, _ => none

/-- d.get(k) with no default: some (some v) for a stored value, some none
for an absent key or a stored null (both are Python None). The outer
none models AttributeError on a non-dict receiver. -/
def Json.pyGet : Json → String → Option (Option Json)
  | .obj fs, k =>
      some (match lookupPairs fs k with
            | some .null => none
            | some v => some v
            | none => none)
  | _, _ => none

/-- d.get(k, d0) with a non-null default d0: an absent key yields the
default, a stored null yields Python None. The outer none models
AttributeError on a non-dict receiver. -/
def Json.pyGetD : Json → String → Json → Option (Option Json)
  | .obj fs, k, d0 =>
      some (match lookupPairs fs k with
            | some .null => none
            | some v => some v
            | none => some d0)
  | _, _, _ => none

/-- The Python dict built by EcowittWeatherStation.parse_data: keys map
to Python values, none standing for Python None. -/
abbrev PyDict := List (String × Option Json)

/-- ecowitt_data.get(k, d0) as used in collect_and_upload lines 270-275:
a present key returns its stored value even when that value is None, so
the default only applies to an absent key. -/
def pyDictGetD (d : PyDict) (k : String) (d0 : Json) : Option Json :=
  match lookupPairs d k with
  | some v => v
  | none => some d0

/-- Result of one requests.get call against a JSON endpoint. -/
inductive Body where
  | malformed
  | json (j : Json)

inductive HttpResp where
  | transportError
  | resp (status : Nat) (body : Body)

/-- A Python call that either returns normally or raises an uncaught
exception. -/
inductive PyResult (α : Type) where
  | ok (v : α)
  | exn

/-- EcowittWeatherStation.get_local_data (lines 53-71): any
RequestException (connection refused, timeout, raise_for_status on a
4xx/5xx, or a JSONDecodeError from response.json()) is caught and None
is returned; otherwise the deserialized body is returned.
raise_for_status raises exactly for statuses 400-599; any other status
the transport delivers (1xx-3xx, or a nonstandard 600-999) is not
raised and its body is processed. -/
def get_local_data : HttpResp → Option Json
  | .transportError => none
  | .resp status body =>
      if 400 ≤ status ∧ status ≤ 599 then none
      else
        match body with
        | .malformed => none
        | .json j => some j

/-- EcowittWeatherStation.parse_data (lines 73-98): each entry of the
dict literal is evaluated in order; any AttributeError from a .get chain
is caught by the except clause and None is returned. The successful
result is always a six-key dict whose values may be Python None. -/
def parse_data (raw : Json) : Option PyDict :=
  match raw.dictGetD "outdoor" (Json.obj []) with
  | none => none
  | some outdoor1 =>
    match outdoor1.pyGet "temperature" with
    | none => none
    | some temperature =>
      match raw.dictGetD "outdoor" (Json.obj []) with
      | none => none
      | some outdoor2 =>
        match outdoor2.pyGet "humidity" with
        | none => none
        | some humidity =>
          match raw.pyGet "pressure" with
          | none => none
          | some pressure =>
            match raw.dictGetD "wind" (Json.obj []) with
            | none => none
            | some wind1 =>
              match wind1.pyGet "windspeed" with
              | none => none
              | some wind_speed =>
                match raw.dictGetD "wind" (Json.obj []) with
                | none => none
                | some wind2 =>
                  match wind2.pyGet "winddir" with
                  | none => none
                  | some wind_direction =>
                    match raw.dictGetD "rain" (Json.obj []) with
                    | none => none
                    | some rain1 =>
                      match rain1.pyGet "rainevent" with
                      | none => none
                      | some rainfall =>
                        some [("temperature", temperature),
                              ("humidity", humidity),
                              ("pressure", pressure),
                              ("wind_speed", wind_speed),
                              ("wind_direction", wind_direction),
                              ("rainfall", rainfall)]

/-- CloudCoverageProvider.get_cloud_coverage (lines 119-144): the except
clause catches only RequestException, so transport failures, 4xx/5xx
statuses and malformed JSON return None, while an AttributeError from
data.get('clouds', \x7b\x7d).get('all', 0) on a non-dict value is an
uncaught exception (PyResult.exn). The returned Python value is the
stored clouds.all value, 0 when the key is absent, None when it is
null. raise_for_status raises exactly for statuses 400-599, so any
other delivered status has its body processed. -/
def get_cloud_coverage : HttpResp → PyResult (Option Json)
  | .transportError => .ok none
  | .resp status body =>
      if 400 ≤ status ∧ status ≤ 599 then .ok none
      else
        match body with
        | .malformed => .ok none
        | .json d =>
            match d.dictGetD "clouds" (Json.obj []) with
            | none => .exn
            | some clouds =>
                match clouds.pyGetD "all" (Json.num 0) with
                | none => .exn
                | some v => .ok v

/-- A naive UTC datetime as produced by datetime.utcnow(). -/
structure Timestamp where
  year : Nat
  month : Nat
  day : Nat
  hour : Nat
  minute : Nat
  second : Nat

def pad2 (n : Nat) : String :=
  if n < 10 then "0" ++ toString n else toString n

def pad4 (n : Nat) : String :=
  if n < 10 then "000" ++ toString n
  else if n < 100 then "00" ++ toString n
  else if n < 1000 then "0" ++ toString n
  else toString n

/-- timestamp.strftime with the format of Weather_Station.py line 178. -/
def strftimeYmdHMS (t : Timestamp) : String :=
  pad4 t.year ++ "-" ++ pad2 t.month ++ "-" ++ pad2 t.day ++ " " ++
    pad2 t.hour ++ ":" ++ pad2 t.minute ++ ":" ++ pad2 t.second

/-- The WeatherData dataclass (lines 24-34). The six station fields hold
whatever Python value collect_and_upload retrieved from the parsed dict,
so each is an Option Json with none standing for Python None; the
dataclass type annotations are not enforced at runtime. -/
structure WeatherData where
  temperature : Option Json
  humidity : Option Json
  pressure : Option Json
  wind_speed : Option Json
  wind_direction : Option Json
  rainfall : Option Json
  cloud_coverage : Json
  timestamp : Timestamp

/-- A value placed in the Wunderground query-parameter dict. -/
inductive ParamValue where
  | pstr (s : String)
  | pint (n : Int)
  | pjson (v : Option Json)

/-- The params dict of WundergroundUploader.upload_data (lines 175-189),
in source order. -/
def buildParams (station_id station_key : String) (w : WeatherData) :
    List (String × ParamValue) :=
  [("ID", .pstr station_id),
   ("PASSWORD", .pstr station_key),
   ("dateutc", .pstr (strftimeYmdHMS w.timestamp)),
   ("tempf", .pjson w.temperature),
   ("humidity", .pjson w.humidity),
   ("baromin", .pjson w.pressure),
   ("windspeedmph", .pjson w.wind_speed),
   ("winddir", .pjson w.wind_direction),
   ("rainin", .pjson w.rainfall),
   ("clouds", .pjson (some w.cloud_coverage)),
   ("action", .pstr "updateraw"),
   ("realtime", .pint 1),
   ("rtfreq", .pint 2880)]

/-- Result of the upload requests.get call, whose body is plain text. -/
inductive TextResp where
  | transportError
  | resp (status : Nat) (body : String)

def charSeqStarts : List Char → List Char → Bool
  | [], _ => true
  | _ :: _, [] => false
  | a :: as, b :: bs => (a == b) && charSeqStarts as bs

def charSeqHas (pat : List Char) : List Char → Bool
  | [] => charSeqStarts pat []
  | c :: rest => charSeqStarts pat (c :: rest) || charSeqHas pat rest

/-- str.lower, restricted to the ASCII case mapping of Char.toLower;
the success marker searched for is pure ASCII. -/
def strLower (s : String) : String := ⟨s.data.map Char.toLower⟩

/-- The test of line 198: 'success' in response.text.lower(). -/
def containsSuccess (s : String) : Bool :=
  charSeqHas "success".data (strLower s).data

/-- The boolean returned by WundergroundUploader.upload_data
(lines 163-207): any RequestException (transport failure or
raise_for_status on a 4xx/5xx) is caught and yields False; otherwise the
result is the success-marker test on the body. raise_for_status raises
exactly for statuses 400-599, so any other delivered status falls
through to the body test. -/
def uploadOutcome : TextResp → Bool
  | .transportError => false
  | .resp status body =>
      if 400 ≤ status ∧ status ≤ 599 then false else containsSuccess body

/-- WundergroundUploader.upload_data: the rendered parameter dict
together with the returned boolean. -/
def upload_data (station_id station_key : String) (w : WeatherData)
    (r : TextResp) : List (String × ParamValue) × Bool :=
  (buildParams station_id station_key w, uploadOutcome r)

/-- One cycle's external world: the responses the three requests.get
calls would receive, the configured credentials, and the value
datetime.utcnow() yields at the single point it is called. -/
structure Env where
  localResp : HttpResp
  cloudResp : HttpResp
  uploadResp : TextResp
  station_id : String
  station_key : String
  now : Timestamp

/-- Externally observable events of one cycle, in order: the two fetch
requests, the datetime.utcnow() read, and the upload request. -/
inductive Ev where
  | localFetch
  | cloudFetch
  | clockRead
  | uploadCall
deriving DecidableEq

structure CycleResult where
  result : PyResult Bool
  reading : Option WeatherData
  trace : List Ev

/-- The WeatherData construction of lines 269-278: each station field is
ecowitt_data.get(key, 0) on the parsed dict, cloud coverage is the
fetched value with None replaced by 0, and the timestamp is the
datetime.utcnow() read. -/
def cycleReading (d : PyDict) (cc : Option Json) (now : Timestamp) :
    WeatherData :=
  { temperature := pyDictGetD d "temperature" (Json.num 0)
    humidity := pyDictGetD d "humidity" (Json.num 0)
    pressure := pyDictGetD d "pressure" (Json.num 0)
    wind_speed := pyDictGetD d "wind_speed" (Json.num 0)
    wind_direction := pyDictGetD d "wind_direction" (Json.num 0)
    rainfall := pyDictGetD d "rainfall" (Json.num 0)
    cloud_coverage := cc.getD (Json.num 0)
    timestamp := now }

/-- WeatherStationManager.collect_and_upload (lines 244-283). The trace
records which external calls happen: a falsy or missing payload and a
parse failure all return False after only the local fetch; an uncaught
exception from the cloud step propagates; otherwise the reading is
constructed and the upload is attempted. -/
def collect_and_upload (env : Env) : CycleResult :=
  match get_local_data env.localResp with
  | none => ⟨.ok false, none, [.localFetch]⟩
  | some raw =>
      if raw.isTruthy then
        match parse_data raw with
        | none => ⟨.ok false, none, [.localFetch]⟩
        | some d =>
            if d.isEmpty then ⟨.ok false, none, [.localFetch]⟩
            else
              match get_cloud_coverage env.cloudResp with
              | .exn => ⟨.exn, none, [.localFetch, .cloudFetch]⟩
              | .ok cc =>
                  let w := cycleReading d cc env.now
                  ⟨.ok (uploadOutcome env.uploadResp), some w,
                    [.localFetch, .cloudFetch, .clockRead, .uploadCall]⟩
      else ⟨.ok false, none, [.localFetch]⟩

/-- Instrumentation of the sequential execution: a start instant and a
duration for each blocking call (the clock read itself takes no time). -/
structure Timing where
  t0 : Nat
  dLocal : Nat
  dCloud : Nat
  dUpload : Nat

def callDuration (tm : Timing) : Ev → Nat
  | .localFetch => tm.dLocal
  | .cloudFetch => tm.dCloud
  | .clockRead => 0
  | .uploadCall => tm.dUpload

/-- The instant at which datetime.utcnow() is read on the full path:
after both fetches have resolved. -/
def clockReadInstant (tm : Timing) : Nat := tm.t0 + tm.dLocal + tm.dCloud

/-- The instant collect_and_upload returns: the start instant plus the
durations of the calls the cycle actually performed. -/
def returnInstant (env : Env) (tm : Timing) : Nat :=
  tm.t0 + ((collect_and_upload env).trace.map (callDuration tm)).sum

/-- The three upload outcomes named by the specification. -/
inductive UploadOutcome where
  | success
  | rejected
  | unavailable
deriving DecidableEq

/-- Modelled from the spec words of claim C3: Success when a 2xx body
carries the case-insensitive marker, Rejected when a 2xx body lacks it,
Unavailable on transport failure or a non-2xx status. -/
def specUploadOutcome : TextResp → UploadOutcome
  | .transportError => .unavailable
  | .resp status body =>
      if 200 ≤ status ∧ status ≤ 299 then
        if containsSuccess body then .success else .rejected
      else .unavailable

/-- Modelled from the spec words of claim C7: a transport failure is a
connection-level error or any non-2xx status. -/
def specTransportFailure (r : HttpResp) : Prop :=
  r = HttpResp.transportError ∨
    ∃ status body, r = HttpResp.resp status body ∧
      ¬(200 ≤ status ∧ status ≤ 299)

/-- Modelled from the spec words of claim C8: the value is an integer in
the range 0 to 100 inclusive. -/
def specCloudInRange : Json → Bool
  | .num q => (q.den == 1) && decide (0 ≤ q.num) && decide (q.num ≤ 100)
  | _ => false

/-- The parsed dict when all six expected fields are absent: every value
is Python None, yet the dict itself has six keys and is truthy. -/
def allUnknownDict : PyDict :=
  [("temperature", none), ("humidity", none), ("pressure", none),
   ("wind_speed", none), ("wind_direction", none), ("rainfall", none)]

/-- A gateway payload carrying only outdoor.temperature; the other five
expected fields are absent. -/
def envC1 : Env :=
  { localResp := HttpResp.resp 200 (Body.json
      (Json.obj [("outdoor", Json.obj [("temperature", Json.num 70)])]))
    cloudResp := HttpResp.resp 200 (Body.json
      (Json.obj [("clouds", Json.obj [("all", Json.num 25)])]))
    uploadResp := TextResp.resp 200 "success"
    station_id := "KCOLITTL1240"
    station_key := "KEY"
    now := ⟨2024, 1, 1, 0, 0, 0⟩ }

/-- A well-formed, truthy gateway payload in which all six expected
fields are absent. -/
def envC2 : Env :=
  { localResp := HttpResp.resp 200 (Body.json
      (Json.obj [("station", Json.str "GW1000")]))
    cloudResp := HttpResp.resp 200 (Body.json
      (Json.obj [("clouds", Json.obj [("all", Json.num 25)])]))
    uploadResp := TextResp.resp 200 "success"
    station_id := "KCOLITTL1240"
    station_key := "KEY"
    now := ⟨2024, 1, 1, 0, 0, 0⟩ }

/-- A cycle whose local fetch fails at the transport level. -/
def envC4 : Env :=
  { localResp := HttpResp.transportError
    cloudResp := HttpResp.resp 200 (Body.json
      (Json.obj [("clouds", Json.obj [("all", Json.num 25)])]))
    uploadResp := TextResp.resp 200 "success"
    station_id := "KCOLITTL1240"
    station_key := "KEY"
    now := ⟨2024, 1, 1, 0, 0, 0⟩ }

/-- A cycle with a usable local payload whose enrichment fetch fails. -/
def envC5 : Env :=
  { localResp := HttpResp.resp 200 (Body.json
      (Json.obj [("pressure", Json.num 30)]))
    cloudResp := HttpResp.transportError
    uploadResp := TextResp.resp 200 "success"
    station_id := "KCOLITTL1240"
    station_key := "KEY"
    now := ⟨2024, 1, 1, 0, 0, 0⟩ }

/-- The parse result of envC5's payload. -/
def pdC5 : PyDict :=
  [("temperature", none), ("humidity", none),
   ("pressure", some (Json.num 30)), ("wind_speed", none),
   ("wind_direction", none), ("rainfall", none)]

/-- The known-literal reading of the specification's rendering test:
temperature 72.5, humidity 40, pressure 29.92, wind speed 5, wind
direction 180, rainfall 0.1, cloud coverage 25, midnight 2024-01-01. -/
def litReading : WeatherData :=
  { temperature := some (Json.num (145 / 2))
    humidity := some (Json.num 40)
    pressure := some (Json.num (2992 / 100))
    wind_speed := some (Json.num 5)
    wind_direction := some (Json.num 180)
    rainfall := some (Json.num (1 / 10))
    cloud_coverage := Json.num 25
    timestamp := ⟨2024, 1, 1, 0, 0, 0⟩ }

/-- A cycle whose enrichment API answers clouds.all = 150, outside the
contractual 0-100 range. -/
def envCloud150 : Env :=
  { localResp := HttpResp.resp 200 (Body.json
      (Json.obj [("outdoor", Json.obj [("temperature", Json.num 70)])]))
    cloudResp := HttpResp.resp 200 (Body.json
      (Json.obj [("clouds", Json.obj [("all", Json.num 150)])]))
    uploadResp := TextResp.resp 200 "success"
    station_id := "KCOLITTL1240"
    station_key := "KEY"
    now := ⟨2024, 1, 1, 0, 0, 0⟩ }

/-- The reading collect_and_upload constructs for envCloud150. -/
def wCloud150 : WeatherData :=
  { temperature := some (Json.num 70)
    humidity := none
    pressure := none
    wind_speed := none
    wind_direction := none
    rainfall := none
    cloud_coverage := Json.num 150
    timestamp := ⟨2024, 1, 1, 0, 0, 0⟩ }

/-- A fully successful cycle with a simple payload. -/
def envC9 : Env :=
  { localResp := HttpResp.resp 200 (Body.json
      (Json.obj [("pressure", Json.num 30)]))
    cloudResp := HttpResp.resp 200 (Body.json
      (Json.obj [("clouds", Json.obj [("all", Json.num 25)])]))
    uploadResp := TextResp.resp 200 "success"
    station_id := "KCOLITTL1240"
    station_key := "KEY"
    now := ⟨2024, 1, 1, 0, 0, 0⟩ }

/-- The reading collect_and_upload constructs for envC9. -/
def wC9 : WeatherData :=
  { temperature := none
    humidity := none
    pressure := some (Json.num 30)
    wind_speed := none
    wind_direction := none
    rainfall := none
    cloud_coverage := Json.num 25
    timestamp := ⟨2024, 1, 1, 0, 0, 0⟩ }

/-- A cycle whose gateway answers 200 with the empty JSON object. -/
def envC10 : Env :=
  { localResp := HttpResp.resp 200 (Body.json (Json.obj []))
    cloudResp := HttpResp.resp 200 (Body.json
      (Json.obj [("clouds", Json.obj [("all", Json.num 25)])]))
    uploadResp := TextResp.resp 200 "success"
    station_id := "KCOLITTL1240"
    station_key := "KEY"
    now := ⟨2024, 1, 1, 0, 0, 0⟩ }

/-- Any cycle that constructs a reading took the full path: the cloud
fetch returned normally, the reading is cycleReading of the parsed dict,
the fetched coverage and the clock value, and the cycle performed
exactly the four external events in order. -/
theorem collect_success_shape (env : Env) (w : WeatherData)
    (h : (collect_and_upload env).reading = some w) :
    ∃ d cc, get_cloud_coverage env.cloudResp = PyResult.ok cc ∧
      w = cycleReading d cc env.now ∧
      collect_and_upload env =
        ⟨PyResult.ok (uploadOutcome env.uploadResp),
          some (cycleReading d cc env.now),
          [Ev.localFetch, Ev.cloudFetch, Ev.clockRead, Ev.uploadCall]⟩ := by
  cases hl : get_local_data env.localResp with
  | none => simp [collect_and_upload, hl] at h
  | some raw =>
    cases ht : raw.isTruthy with
    | false => simp [collect_and_upload, hl, ht] at h
    | true =>
      cases hp : parse_data raw with
      | none => simp [collect_and_upload, hl, ht, hp] at h
      | some d =>
        cases he : List.isEmpty d with
        | true => simp [collect_and_upload, hl, ht, hp, he] at h
        | false =>
          cases hc : get_cloud_coverage env.cloudResp with
          | exn => simp [collect_and_upload, hl, ht, hp, he, hc] at h
          | ok cc =>
            refine ⟨d, cc, rfl, ?_, ?_⟩
            · have := h
              simp [collect_and_upload, hl, ht, hp, he, hc] at this
              exact this.symm
            · simp [collect_and_upload, hl, ht, hp, he, hc]

/-- C1: at the failing input, a payload that deserializes successfully
and carries outdoor.temperature = 70 but none of the other five fields,
the constructed reading keeps the present field exactly (70) while the
absent humidity field is Python None, not 0: parse_data stores None
under every key, so the .get(key, 0) defaults of lines 270-275 never
apply. -/
theorem default_fill_dead :
    get_local_data envC1.localResp =
      some (Json.obj [("outdoor", Json.obj [("temperature", Json.num 70)])]) ∧
    ((collect_and_upload envC1).reading.map
        (fun w => (w.temperature, w.humidity))) =
      some (some (Json.num 70), none) ∧
    (some (none : Option Json) ≠ some (some (Json.num 0))) := by
  refine ⟨rfl, rfl, ?_⟩
  intro hcontra
  simp at hcontra

/-- C2 counterexample: a payload that deserializes successfully with all
six expected fields absent does not end the cycle: a WeatherReading is
constructed and the upload call is made, contrary to the claimed
SkippedParseFailure outcome. -/
theorem all_unknown_skip_cex :
    parse_data (Json.obj [("station", Json.str "GW1000")]) =
      some allUnknownDict ∧
    (collect_and_upload envC2).reading =
      some (cycleReading allUnknownDict (some (Json.num 25)) envC2.now) ∧
    (collect_and_upload envC2).trace =
      [Ev.localFetch, Ev.cloudFetch, Ev.clockRead, Ev.uploadCall] :=
  ⟨rfl, rfl, rfl⟩

/-- C2 amended: a well-formed, truthy payload in which every parsed
field is Unknown still proceeds: the cycle constructs a WeatherReading
from the all-None dict and attempts the upload; the parse-skip branch
fires only when parse_data itself returns None. -/
theorem all_unknown_proceeds_amended (env : Env) (raw : Json)
    (cc : Option Json)
    (h1 : get_local_data env.localResp = some raw)
    (h2 : raw.isTruthy = true)
    (h3 : parse_data raw = some allUnknownDict)
    (h4 : get_cloud_coverage env.cloudResp = PyResult.ok cc) :
    collect_and_upload env =
      ⟨PyResult.ok (uploadOutcome env.uploadResp),
        some (cycleReading allUnknownDict cc env.now),
        [Ev.localFetch, Ev.cloudFetch, Ev.clockRead, Ev.uploadCall]⟩ := by
  simp [collect_and_upload, h1, h2, h3, h4, allUnknownDict]

/-- C2 amended witness at envC2. -/
theorem all_unknown_proceeds_amended_w :
    collect_and_upload envC2 =
      ⟨PyResult.ok (uploadOutcome envC2.uploadResp),
        some (cycleReading allUnknownDict (some (Json.num 25)) envC2.now),
        [Ev.localFetch, Ev.cloudFetch, Ev.clockRead, Ev.uploadCall]⟩ :=
  all_unknown_proceeds_amended envC2 (Json.obj [("station", Json.str "GW1000")])
    (some (Json.num 25)) rfl rfl rfl rfl

/-- C3 counterexample: a 2xx response without the marker (Rejected per
the claim) and a transport failure (Unavailable per the claim) produce
the same value False at the caller, so the two outcomes are not
distinguishable to the caller. -/
theorem upload_outcomes_collapse_cex :
    specUploadOutcome (TextResp.resp 200 "OK") = UploadOutcome.rejected ∧
    specUploadOutcome TextResp.transportError = UploadOutcome.unavailable ∧
    uploadOutcome (TextResp.resp 200 "OK") =
      uploadOutcome TextResp.transportError :=
  ⟨rfl, rfl, rfl⟩

/-- C3 amended: upload_data returns a boolean: the case-insensitive
marker test on the body whenever the request does not raise (any status
outside 400-599, the range raise_for_status raises on); False on a
transport failure or a 4xx/5xx status. A 2xx body without the marker
and a transport failure therefore both return False, indistinguishable
in the returned value. -/
theorem upload_result_amended :
    (∀ status body, 200 ≤ status → status ≤ 299 →
        uploadOutcome (TextResp.resp status body) = containsSuccess body) ∧
    uploadOutcome TextResp.transportError = false ∧
    (∀ status body, 400 ≤ status → status ≤ 599 →
        uploadOutcome (TextResp.resp status body) = false) ∧
    (∀ status body, ¬(400 ≤ status ∧ status ≤ 599) →
        uploadOutcome (TextResp.resp status body) = containsSuccess body) ∧
    uploadOutcome (TextResp.resp 200 "OK") =
      uploadOutcome TextResp.transportError := by
  refine ⟨?_, rfl, ?_, ?_, rfl⟩
  · intro s b h1 h2
    have hns : ¬(400 ≤ s ∧ s ≤ 599) := by omega
    simp [uploadOutcome, hns]
  · intro s b h1 h2
    simp [uploadOutcome, h1, h2]
  · intro s b hns
    simp [uploadOutcome, hns]

/-- C3 amended witness on a 2xx body carrying the marker. -/
theorem upload_result_amended_w :
    uploadOutcome (TextResp.resp 204 "ok SUCCESS done") =
      containsSuccess "ok SUCCESS done" :=
  upload_result_amended.1 204 "ok SUCCESS done" (by decide) (by decide)

/-- C4: when the local fetch returns Unavailable (None), the cycle
returns False immediately and neither the enrichment fetch nor the
upload call is made. -/
theorem no_local_data_skips (env : Env)
    (h : get_local_data env.localResp = none) :
    collect_and_upload env = ⟨PyResult.ok false, none, [Ev.localFetch]⟩ ∧
    Ev.cloudFetch ∉ (collect_and_upload env).trace ∧
    Ev.uploadCall ∉ (collect_and_upload env).trace := by
  have hc : collect_and_upload env =
      ⟨PyResult.ok false, none, [Ev.localFetch]⟩ := by
    simp [collect_and_upload, h]
  refine ⟨hc, ?_, ?_⟩ <;> rw [hc] <;> decide

/-- C4 witness at a transport-level local failure. -/
theorem no_local_data_skips_w :
    collect_and_upload envC4 = ⟨PyResult.ok false, none, [Ev.localFetch]⟩ ∧
    Ev.cloudFetch ∉ (collect_and_upload envC4).trace ∧
    Ev.uploadCall ∉ (collect_and_upload envC4).trace :=
  no_local_data_skips envC4 rfl

/-- C5: when the local fetch and parse succeed and the enrichment fetch
returns Unavailable (None), the upload is still attempted and the
constructed reading's cloud_coverage is 0. -/
theorem enrichment_unavailable_uploads (env : Env) (raw : Json)
    (d : PyDict)
    (h1 : get_local_data env.localResp = some raw)
    (h2 : raw.isTruthy = true)
    (h3 : parse_data raw = some d)
    (h4 : d.isEmpty = false)
    (h5 : get_cloud_coverage env.cloudResp = PyResult.ok none) :
    collect_and_upload env =
      ⟨PyResult.ok (uploadOutcome env.uploadResp),
        some (cycleReading d none env.now),
        [Ev.localFetch, Ev.cloudFetch, Ev.clockRead, Ev.uploadCall]⟩ ∧
    (cycleReading d none env.now).cloud_coverage = Json.num 0 := by
  constructor
  · simp [collect_and_upload, h1, h2, h3, h4, h5]
  · rfl

/-- C5 witness at envC5 (cloud fetch fails at the transport level). -/
theorem enrichment_unavailable_uploads_w :
    collect_and_upload envC5 =
      ⟨PyResult.ok (uploadOutcome envC5.uploadResp),
        some (cycleReading pdC5 none envC5.now),
        [Ev.localFetch, Ev.cloudFetch, Ev.clockRead, Ev.uploadCall]⟩ ∧
    (cycleReading pdC5 none envC5.now).cloud_coverage = Json.num 0 :=
  enrichment_unavailable_uploads envC5 (Json.obj [("pressure", Json.num 30)])
    pdC5 rfl rfl rfl rfl rfl

/-- C6: for every reading the rendered parameter dict carries exactly
the thirteen expected keys in source order, and at the specification's
known-literal reading it equals the exact expected parameter set,
including the zero-padded UTC timestamp string and the fixed action,
realtime and update-frequency constants. -/
theorem upload_params_exact :
    (∀ sid skey w, (buildParams sid skey w).map Prod.fst =
      ["ID", "PASSWORD", "dateutc", "tempf", "humidity", "baromin",
       "windspeedmph", "winddir", "rainin", "clouds", "action",
       "realtime", "rtfreq"]) ∧
    buildParams "MYSTATION" "MYKEY" litReading =
      [("ID", .pstr "MYSTATION"),
       ("PASSWORD", .pstr "MYKEY"),
       ("dateutc", .pstr "2024-01-01 00:00:00"),
       ("tempf", .pjson (some (Json.num (145 / 2)))),
       ("humidity", .pjson (some (Json.num 40))),
       ("baromin", .pjson (some (Json.num (2992 / 100)))),
       ("windspeedmph", .pjson (some (Json.num 5))),
       ("winddir", .pjson (some (Json.num 180))),
       ("rainin", .pjson (some (Json.num (1 / 10)))),
       ("clouds", .pjson (some (Json.num 25))),
       ("action", .pstr "updateraw"),
       ("realtime", .pint 1),
       ("rtfreq", .pint 2880)] :=
  ⟨fun _ _ _ => rfl, rfl⟩

/-- C7 counterexample: a 303 status is non-2xx, yet raise_for_status
does not raise below 400, so get_local_data returns the deserialized
body rather than None; and at a 303 whose JSON body is a bare number,
get_cloud_coverage raises an uncaught AttributeError instead of
returning None. -/
theorem fetch_unavailable_cex :
    specTransportFailure (HttpResp.resp 303
      (Body.json (Json.obj [("pressure", Json.num 1)]))) ∧
    get_local_data (HttpResp.resp 303
        (Body.json (Json.obj [("pressure", Json.num 1)]))) =
      some (Json.obj [("pressure", Json.num 1)]) ∧
    get_cloud_coverage (HttpResp.resp 303 (Body.json (Json.num 5))) =
      PyResult.exn := by
  refine ⟨Or.inr ⟨303, Body.json (Json.obj [("pressure", Json.num 1)]),
    rfl, by omega⟩, rfl, rfl⟩

/-- C7 amended: for connection-level failures and for exactly the
statuses raise_for_status raises on (400-599), both fetch operations
return None and raise nothing. -/
theorem fetch_unavailable_amended (r : HttpResp)
    (h : r = HttpResp.transportError ∨
      ∃ status body, r = HttpResp.resp status body ∧
        400 ≤ status ∧ status ≤ 599) :
    get_local_data r = none ∧
    get_cloud_coverage r = PyResult.ok none := by
  rcases h with rfl | ⟨s, b, rfl, hs1, hs2⟩
  · exact ⟨rfl, rfl⟩
  · constructor
    · simp [get_local_data, hs1, hs2]
    · simp [get_cloud_coverage, hs1, hs2]

/-- C7 amended witness at a connection-level failure. -/
theorem fetch_unavailable_amended_w :
    get_local_data HttpResp.transportError = none ∧
    get_cloud_coverage HttpResp.transportError = PyResult.ok none :=
  fetch_unavailable_amended HttpResp.transportError (Or.inl rfl)

/-- C8 counterexample: when the enrichment API answers clouds.all = 150,
the constructed reading's cloud_coverage is 150, outside the claimed
0-100 range; no clamping happens anywhere in the cycle. -/
theorem cloud_range_cex :
    get_cloud_coverage envCloud150.cloudResp =
      PyResult.ok (some (Json.num 150)) ∧
    ((collect_and_upload envCloud150).reading.map
        WeatherData.cloud_coverage) = some (Json.num 150) ∧
    specCloudInRange (Json.num 150) = false :=
  ⟨rfl, rfl, rfl⟩

/-- C8 amended: the constructed reading's cloud_coverage is exactly the
value the enrichment fetch returned, with 0 substituted only for None;
it lies in 0-100 only when that value does. -/
theorem cloud_passthrough_amended (env : Env) (w : WeatherData)
    (cc : Option Json)
    (h1 : get_cloud_coverage env.cloudResp = PyResult.ok cc)
    (h2 : (collect_and_upload env).reading = some w) :
    w.cloud_coverage = Option.getD cc (Json.num 0) := by
  obtain ⟨d, cc2, hcc, hw, _⟩ := collect_success_shape env w h2
  rw [h1] at hcc
  injection hcc with hcc2
  rw [hw, hcc2]
  rfl

/-- C8 amended witness at envCloud150. -/
theorem cloud_passthrough_amended_w :
    wCloud150.cloud_coverage = Option.getD (some (Json.num 150)) (Json.num 0) :=
  cloud_passthrough_amended envCloud150 wCloud150 (some (Json.num 150)) rfl rfl

/-- C9: every cycle that constructs a reading performed exactly the four
events local fetch, cloud fetch, clock read, upload in that order; the
clock is read exactly once, after both fetches and before the upload,
and its value becomes the reading's timestamp; in the timed
instrumentation that instant lies between the cycle's start and return
instants. -/
theorem timestamp_once_between (env : Env) (tm : Timing)
    (w : WeatherData)
    (h : (collect_and_upload env).reading = some w) :
    (collect_and_upload env).trace =
      [Ev.localFetch, Ev.cloudFetch, Ev.clockRead, Ev.uploadCall] ∧
    (collect_and_upload env).trace.count Ev.clockRead = 1 ∧
    w.timestamp = env.now ∧
    tm.t0 ≤ clockReadInstant tm ∧
    clockReadInstant tm ≤ returnInstant env tm := by
  obtain ⟨d, cc, hcc, hw, hcu⟩ := collect_success_shape env w h
  have htr : (collect_and_upload env).trace =
      [Ev.localFetch, Ev.cloudFetch, Ev.clockRead, Ev.uploadCall] := by
    rw [hcu]
  refine ⟨htr, ?_, ?_, ?_, ?_⟩
  · rw [htr]; decide
  · rw [hw]; rfl
  · unfold clockReadInstant; omega
  · unfold returnInstant clockReadInstant
    rw [htr]
    simp [callDuration]
    omega

/-- C9 witness at a fully successful concrete cycle with start instant 0
and call durations 1, 2 and 3. -/
theorem timestamp_once_between_w :
    (collect_and_upload envC9).trace =
      [Ev.localFetch, Ev.cloudFetch, Ev.clockRead, Ev.uploadCall] ∧
    (collect_and_upload envC9).trace.count Ev.clockRead = 1 ∧
    wC9.timestamp = envC9.now ∧
    Timing.t0 ⟨0, 1, 2, 3⟩ ≤ clockReadInstant ⟨0, 1, 2, 3⟩ ∧
    clockReadInstant ⟨0, 1, 2, 3⟩ ≤ returnInstant envC9 ⟨0, 1, 2, 3⟩ :=
  timestamp_once_between envC9 ⟨0, 1, 2, 3⟩ wC9 rfl

/-- C10: any response whose status does not make raise_for_status raise
and whose body deserializes to a falsy payload (the empty object, and
likewise [], "", 0, false or null) makes the cycle byte-for-byte the
same as a transport failure at the Orchestrator boundary: False is
returned after only the local fetch, with no enrichment and no
upload. -/
theorem empty_payload_like_unavailable (env : Env) (status : Nat)
    (j : Json)
    (h : env.localResp = HttpResp.resp status (Body.json j))
    (hs : ¬(400 ≤ status ∧ status ≤ 599))
    (hf : j.isTruthy = false) :
    collect_and_upload env =
      collect_and_upload { env with localResp := HttpResp.transportError } ∧
    collect_and_upload env = ⟨PyResult.ok false, none, [Ev.localFetch]⟩ := by
  have hl : get_local_data env.localResp = some j := by
    rw [h]; simp [get_local_data, hs]
  have h2 : collect_and_upload env =
      ⟨PyResult.ok false, none, [Ev.localFetch]⟩ := by
    simp [collect_and_upload, hl, hf]
  have h3 : collect_and_upload
      { env with localResp := HttpResp.transportError } =
      ⟨PyResult.ok false, none, [Ev.localFetch]⟩ := rfl
  exact ⟨h2.trans h3.symm, h2⟩

/-- C10 witness at envC10: status 200, body the empty object. -/
theorem empty_payload_like_unavailable_w :
    collect_and_upload envC10 =
      collect_and_upload { envC10 with localResp := HttpResp.transportError } ∧
    collect_and_upload envC10 = ⟨PyResult.ok false, none, [Ev.localFetch]⟩ :=
  empty_payload_like_unavailable envC10 200 (Json.obj []) rfl
    (by omega) rfl
